import Mathlib

/-!
Shallow embedding of `src/data/build_spreadsheets_site.py`, a generator of
static HTML pages for `.xlsx` workbooks.  Pure string-producing functions of
the script are transcribed as Lean functions on an abstract data model of
workbooks (a file name plus an ordered list of sheets, each a name plus a
2-D grid of cells).  The driver `main` is modelled as a function from the
listing of the input directory to the set of filesystem effects it performs.

Character-level caveat: Python's `str.isalnum`, `str.lower` are
Unicode-aware; the embedding uses Lean's ASCII `Char.isAlphanum` /
`Char.toLower`, which agree with Python on the ASCII fragment that all
concrete inputs in this development use.
-/

namespace SpreadSite

/-- A cell of a sheet: either missing/null, or a scalar whose Python
`str()` form is the stored string.  `df2.where(pd.notnull(df2), "")`
followed by `astype(str)` (lines 155-156) maps `null` to `""` and a
value to its string form. -/
inductive Cell where
  | null : Cell
  | val (s : String) : Cell
deriving DecidableEq, Repr

/-- The string a cell contributes after `where(notnull, "")` + `astype(str)`. -/
def cellStr : Cell → String
  | Cell.null => ""
  | Cell.val s => s

/-- A sheet: its name and its 2-D grid of cells (pandas `read_excel` with
`header=None` yields a rectangular grid; all rows are data). -/
structure Sheet where
  name : String
  grid : List (List Cell)
deriving DecidableEq, Repr

/-- A workbook: its file name (`xlsx_path.name`) and its sheets in the
order reported by the file (`xls.sheet_names`, line 163). -/
structure Workbook where
  fileName : String
  sheets : List Sheet
deriving DecidableEq, Repr

/-- Python `html.escape` with the default `quote=True`: replaces
`&`, `<`, `>`, `"`, `'`.  The sequential `str.replace` calls of
`html.escape` are equivalent to this character-wise map because no
replacement string contains a character replaced later. -/
def escChar (c : Char) : String :=
  if c = '&' then "&amp;"
  else if c = '<' then "&lt;"
  else if c = '>' then "&gt;"
  else if c = '"' then "&quot;"
  else if c = '\'' then "&#x27;"
  else String.mk [c]

/-- Python `html.escape(s)` as used throughout the script. -/
def htmlEscape (s : String) : String :=
  String.join (s.data.map escChar)

/-- The escaping pandas `DataFrame.to_html` applies with its default
`escape=True` (documented: converts `<`, `>` and `&` to HTML-safe
sequences). -/
def pandasEscChar (c : Char) : String :=
  if c = '&' then "&amp;"
  else if c = '<' then "&lt;"
  else if c = '>' then "&gt;"
  else String.mk [c]

/-- pandas cell-text escaping. -/
def pandasEscape (s : String) : String :=
  String.join (s.data.map pandasEscChar)

/-- Python `"".join(parts)`: concatenation of a list of strings. -/
def concatAll : List String → String
  | [] => ""
  | s :: rest => s ++ concatAll rest

/-- Python `strip("-")` on a character list: drop leading and trailing `'-'`. -/
def stripDashes (cs : List Char) : List Char :=
  ((cs.dropWhile (fun c => c = '-')).reverse.dropWhile (fun c => c = '-')).reverse

/-- Line 167: the anchor built for the navigation link of sheet `s`:
`"sheet-" + "".join(ch if ch.isalnum() else "-" for ch in s).strip("-").lower()`. -/
def navAnchorOf (s : String) : String :=
  "sheet-" ++
    String.mk ((stripDashes (s.data.map
      (fun ch => if ch.isAlphanum then ch else '-'))).map Char.toLower)

/-- Line 189: the anchor used as the `id` of sheet `s`'s section element —
the same expression as line 167, transcribed from its own occurrence. -/
def sectionAnchorOf (s : String) : String :=
  "sheet-" ++
    String.mk ((stripDashes (s.data.map
      (fun ch => if ch.isAlphanum then ch else '-'))).map Char.toLower)

/-- Python `pathlib` component parsing (POSIX): split on `/`, dropping empty and
`"."` components. -/
def pathComponents (s : String) : List (List Char) :=
  (s.data.splitOn '/').filter (fun c => c ≠ [] ∧ c ≠ ['.'])

/-- Python `Path(s).name`: the last component, or `""` when there is none. -/
def pathName (s : String) : String :=
  String.mk ((pathComponents s).getLastD [])

/-- Index of the last occurrence of `c` in `cs` (Python `str.rfind`). -/
def rfindIdx (c : Char) (cs : List Char) : Option Nat :=
  match cs.reverse.findIdx? (fun x => x = c) with
  | none => none
  | some j => some (cs.length - 1 - j)

/-- Python `Path(s).stem`: the name without its suffix; pathlib takes the suffix
from the last `'.'` only when its index `i` satisfies `0 < i < len - 1`. -/
def pathStem (s : String) : String :=
  let n := pathName s
  match rfindIdx '.' n.data with
  | none => n
  | some i => if 0 < i ∧ i + 1 < n.data.length then String.mk (n.data.take i) else n

/-- The per-character replacement of `sanitize_filename` (line 150):
`ch if (ch.isalnum() or ch in "-_") else "_"`. -/
def sanChar (ch : Char) : Char :=
  if ch.isAlphanum ∨ ch = '-' ∨ ch = '_' then ch else '_'

/-- Lines 148-151: `sanitize_filename`. -/
def sanitize_filename (name : String) : String :=
  let stem := pathStem name
  let safe := String.mk (stem.data.map sanChar)
  safe ++ ".html"

/-- Lines 77-146: the embedded stylesheet `PAGE_CSS` (triple-quoted, so it
begins and ends with a newline).  Literal braces are written `\x7b`/`\x7d`. -/
def PAGE_CSS : String := "
:root \x7b color-scheme: light dark; \x7d
body \x7b
  font-family: system-ui, -apple-system, Segoe UI, Roboto, Arial, sans-serif;
  margin: 24px;
  line-height: 1.4;
\x7d
a \x7b text-decoration: none; \x7d
a:hover \x7b text-decoration: underline; \x7d
.header \x7b
  display: flex;
  gap: 14px;
  align-items: baseline;
  flex-wrap: wrap;
  margin-bottom: 16px;
\x7d
.header h1 \x7b
  font-size: 22px;
  margin: 0;
\x7d
.meta \x7b
  color: #666;
  font-size: 13px;
\x7d
.sheet-nav \x7b
  margin: 10px 0 18px;
  padding: 10px 12px;
  border: 1px solid rgba(125,125,125,.35);
  border-radius: 10px;
\x7d
.sheet-nav a \x7b
  margin-right: 10px;
  white-space: nowrap;
\x7d
table \x7b
  border-collapse: collapse;
  margin: 10px 0 24px;
  width: max-content;
  max-width: 100%;
\x7d
td, th \x7b
  border: 1px solid rgba(125,125,125,.35);
  padding: 4px 8px;
  vertical-align: top;
  font-size: 13px;
\x7d
th \x7b
  position: sticky;
  top: 0;
  background: rgba(200,200,200,.25);
  backdrop-filter: blur(6px);
\x7d
.section \x7b
  margin-top: 26px;
\x7d
.section h2 \x7b
  font-size: 18px;
  margin: 0 0 6px;
\x7d
.small \x7b
  font-size: 12px;
  color: #666;
\x7d
.wrap \x7b
  overflow-x: auto;
  border: 1px solid rgba(125,125,125,.25);
  border-radius: 12px;
  padding: 10px;
\x7d
"

/-- The text of one table cell as pandas `to_html` emits it between
`<td>` and `</td>`: the escaped string form of the cell. -/
def tdCore (c : Cell) : String := "<td>" ++ pandasEscape (cellStr c) ++ "</td>"

/-- One `<td>` line of pandas `to_html` output (6-space indentation, then
the cell, then a newline). -/
def tdHtml (c : Cell) : String := "      " ++ tdCore c ++ "\n"

/-- One `<tr>` block of pandas `to_html` output. -/
def trHtml (row : List Cell) : String :=
  "    <tr>\n" ++ concatAll (row.map tdHtml) ++ "    </tr>\n"

/-- Lines 153-158: `df_to_html_table`.  With `index=False, header=False,
border=0` pandas emits a `<table border="0" class="dataframe">` wrapping a
`<tbody>` of one `<tr>` per data row; `escape=True` (the default) escapes
`<`, `>`, `&` in every cell. -/
def df_to_html_table (df : List (List Cell)) : String :=
  "<table border=\"0\" class=\"dataframe\">\n  <tbody>\n"
    ++ concatAll (df.map trHtml)
    ++ "  </tbody>\n</table>"

/-- One navigation link (line 168): `<a href="#{anchor}">{html.escape(s)}</a>`. -/
def navLinkOf (s : String) : String :=
  "<a href=\"#" ++ navAnchorOf s ++ "\">" ++ htmlEscape s ++ "</a>"

/-- Line 169: `nav_html`. -/
def navHtmlOf (names : List String) : String :=
  "<div class=\"sheet-nav\"><div class=\"small\">Sheets:</div>"
    ++ concatAll (names.map navLinkOf) ++ "</div>"

/-- Columns count `df.shape[1]` for the rectangular grid pandas `read_excel` returns:
the common row length (0 for an empty frame). -/
def colsOf : List (List Cell) → Nat
  | [] => 0
  | r :: _ => r.length

/-- The first piece of the header f-string (lines 172-186) up to the point
where `nav_html` is interpolated. -/
def docHeadOf (wb : Workbook) (backHref : String) : String :=
  "<!doctype html>\n<html lang=\"en\">\n<head>\n  <meta charset=\"utf-8\" />\n  <meta name=\"viewport\" content=\"width=device-width, initial-scale=1\" />\n  <title>"
    ++ htmlEscape wb.fileName
    ++ "</title>\n  <style>" ++ PAGE_CSS ++ "</style>\n</head>\n<body>\n  <div class=\"header\">\n    <h1>"
    ++ htmlEscape wb.fileName
    ++ "</h1>\n    <div class=\"meta\"><a href=\"" ++ backHref
    ++ "\">← Back to list</a></div>\n  </div>\n  "

/-- The whole first element of `parts` (the header f-string, `nav_html`
included). -/
def headerPartOf (wb : Workbook) (backHref : String) : String :=
  docHeadOf wb backHref ++ navHtmlOf (wb.sheets.map Sheet.name) ++ "\n"

/-- One sheet section (the per-sheet f-string, lines 193-199): section
`div` with the anchor id, escaped heading, row/column counts, and the
table. -/
def sectionPartOf (sh : Sheet) : String :=
  "\n  <div class=\"section\" id=\"" ++ sectionAnchorOf sh.name
    ++ "\">\n    <h2>" ++ htmlEscape sh.name
    ++ "</h2>\n    <div class=\"small\">" ++ toString sh.grid.length
    ++ " rows × " ++ toString (colsOf sh.grid)
    ++ " columns</div>\n    <div class=\"wrap\">" ++ df_to_html_table sh.grid
    ++ "</div>\n  </div>\n"

/-- The closing element of `parts` (lines 201-204). -/
def footerPart : String := "\n</body>\n</html>\n"

/-- Lines 161-206: `render_workbook` as a function of the workbook read
from disk; the string written to `out_path` is `"".join(parts)` with the
header (nav included) first, one section per sheet in `sheet_names`
order, and the footer. -/
def renderWorkbook (wb : Workbook) (backHref : String) : String :=
  concatAll ([headerPartOf wb backHref] ++ wb.sheets.map sectionPartOf ++ [footerPart])

/-- Line 212: one `<li>` of the index, for a workbook file name `n`. -/
def indexItemOf (sheetsDir : String) (n : String) : String :=
  "<li><a href=\"" ++ sheetsDir ++ "/" ++ sanitize_filename n
    ++ "\" target=\"_blank\" rel=\"noopener\">" ++ htmlEscape n ++ "</a></li>"

/-- The index f-string (lines 213-232) up to `''.join(items)`.  The
doubled braces of the Python f-string are single literal braces, written
`\x7b`/`\x7d`. -/
def indexHead : String :=
  "<!doctype html>\n<html lang=\"en\">\n<head>\n  <meta charset=\"utf-8\" />\n  <meta name=\"viewport\" content=\"width=device-width, initial-scale=1\" />\n  <title>Spreadsheets</title>\n  <style>\n    body \x7b font-family: system-ui, -apple-system, Segoe UI, Roboto, Arial, sans-serif; margin: 24px; \x7d\n    h1 \x7b margin: 0 0 10px; font-size: 22px; \x7d\n    .note \x7b color: #666; font-size: 13px; margin-bottom: 14px; \x7d\n    ul \x7b line-height: 1.8; \x7d\n    a \x7b text-decoration: none; \x7d\n    a:hover \x7b text-decoration: underline; \x7d\n  </style>\n</head>\n<body>\n  <h1>Spreadsheets</h1>\n  <div class=\"note\">Click a filename to open its static HTML view in a new tab.</div>\n  <ul>\n    "

/-- The tail of the index f-string (lines 232-236). -/
def indexTail : String := "\n  </ul>\n</body>\n</html>\n"

/-- Lines 208-237: `render_index`, over the selected file names (`f.name`
for each selected path). -/
def render_index (files : List String) (sheetsDir : String) : String :=
  indexHead ++ concatAll (files.map (indexItemOf sheetsDir)) ++ indexTail

/-- Lines 24-75: the fixed ordered list `ORDERED_XLSX`. -/
def ORDERED_XLSX : List String := [
  "actualexpectedgrades.xlsx",
  "altinstrument.xlsx",
  "basedata.xlsx",
  "bootstrap_params.xlsx",
  "bpref.xlsx",
  "bstartbundled.xlsx",
  "bundleddata.xlsx",
  "bundledse.xlsx",
  "bundled_structural_param.xlsx",
  "choicesetevolution.xlsx",
  "effortparams.xlsx",
  "effortraw.xlsx",
  "effort_data.xlsx",
  "enrl_order.xlsx",
  "estimates_joint_threetype_cap.xlsx",
  "estimates_joint_threetype_start.xlsx",
  "estimates_joint_threetype_start_wfp.xlsx",
  "estimates_joint_threetype_wfp.xlsx",
  "evaluation_class.xlsx",
  "GEgrade3results.xlsx",
  "GEgrade3results_noeff.xlsx",
  "GEgrade3results_noeffld.xlsx",
  "GEgrade3results_nu2.xlsx",
  "GEgrade3start_noeff.xlsx",
  "GEgrade3start_noeffld.xlsx",
  "GEtables_effort.xlsx",
  "GEtables_noeff.xlsx",
  "GE_counterfacts_data_sort.xlsx",
  "gridderiv.xlsx",
  "gridderivact.xlsx",
  "instructorrank.xlsx",
  "multisemevaluation.xlsx",
  "numbers.xlsx",
  "PENoGrades.xlsx",
  "PEresults.xlsx",
  "PE_counterfacts_data.xlsx",
  "profdecomp.xlsx",
  "profprefs.xlsx",
  "profreduced.xlsx",
  "profresults.xlsx",
  "robustresults.xlsx",
  "room_capacity.xlsx",
  "student_data.xlsx",
  "super_list.xlsx",
  "t12.xlsx",
  "t4.xlsx",
  "tables_1to4.xlsx",
  "tables_6to14.xlsx",
  "tables_appB.xlsx",
  "tables_appD.xlsx"]

/-- Tests that the first list begins with `pat` (character-list comparison). -/
def listStartsWith : List Char → List Char → Bool
  | _, [] => true
  | [], _ :: _ => false
  | a :: as, b :: bs => (a == b) && listStartsWith as bs

/-- Tests that `s` ends with `pat`. -/
def strHasEnding (s pat : String) : Bool :=
  listStartsWith s.data.reverse pat.data.reverse

/-- Line 260: `xlsx_dir.glob("*.xlsx")` over the directory listing.  The
`*` wildcard of `pathlib.Path.glob` matches any run of characters of the
name, a leading dot included (hidden `.xlsx` files are matched too), so
the pattern selects exactly the names ending in `.xlsx`
(case-sensitively, on POSIX). -/
def globXlsx (dirFiles : List String) : List String :=
  dirFiles.filter (fun n => strHasEnding n ".xlsx")

/-- Code-point lexicographic comparison of character lists: the order
Python uses to compare strings. -/
def lexLe : List Char → List Char → Bool
  | [], _ => true
  | _ :: _, [] => false
  | a :: as, b :: bs =>
    if a.toNat < b.toNat then true
    else if b.toNat < a.toNat then false
    else lexLe as bs

/-- Comparison `a <= b` on strings as Python compares them. -/
def strLe (a b : String) : Bool := lexLe a.data b.data

/-- Insertion of one name into an already sorted list of names. -/
def insertSorted (x : String) : List String → List String
  | [] => [x]
  | y :: ys => if strLe x y then x :: y :: ys else y :: insertSorted x ys

/-- Python `sorted` on file names: a stable sort under code-point
lexicographic order (the paths sorted at line 260 share the directory, so
their order is the order of the names; names that compare equal are
identical strings, so any sorted permutation is the same list). -/
def sortStrings : List String → List String
  | [] => []
  | x :: xs => insertSorted x (sortStrings xs)

/-- Lines 251-257: stage 1 of selection — the members of `ORDERED_XLSX`
present on disk, kept in the fixed list's order. -/
def foundFromList (dirFiles : List String) : List String :=
  ORDERED_XLSX.filter (fun n => dirFiles.contains n)

/-- Lines 251-260: the selected workbooks — the fixed-list stage, or if it
found nothing, every `*.xlsx` of the directory in lexicographic order. -/
def selectWorkbooks (dirFiles : List String) : List String :=
  let found := foundFromList dirFiles
  if found.isEmpty then sortStrings (globXlsx dirFiles) else found

/-- One observable effect of `main` (lines 239-271), in program order. -/
inductive Effect where
  | mkdirSheets : Effect
  | logSkip (path : String) : Effect
  | writePage (path : String) : Effect
  | logWrote (path : String) : Effect
  | writeIndex (path : String) : Effect
  | exitErr (msg : String) : Effect
deriving DecidableEq, Repr

/-- The effect trace of `main` given the listing of `--xlsx-dir`:
`sheets_dir.mkdir` first (line 249), then one skip log per listed name
absent from disk (line 257), then either the fatal `SystemExit` (line
263) or the page writes (in selection order) and the index write.
Output paths are relative to `--out-dir`. -/
def mainTrace (xlsxDir sheetsDirName : String) (dirFiles : List String) : List Effect :=
  Effect.mkdirSheets ::
    ((ORDERED_XLSX.filter (fun n => !(dirFiles.contains n))).map
        (fun n => Effect.logSkip (xlsxDir ++ "/" ++ n))
      ++ (if (selectWorkbooks dirFiles).isEmpty then
            [Effect.exitErr ("No .xlsx files found in " ++ xlsxDir)]
          else
            ((selectWorkbooks dirFiles).map (fun n =>
                [Effect.writePage (sheetsDirName ++ "/" ++ sanitize_filename n),
                 Effect.logWrote (sheetsDirName ++ "/" ++ sanitize_filename n)])).flatten
              ++ [Effect.writeIndex "spreadsheets.html",
                  Effect.logWrote "spreadsheets.html"]))

/-- The process exit status: `raise SystemExit(str)` exits with status 1;
a completed run exits with 0. -/
def mainExitCode (dirFiles : List String) : Nat :=
  if (selectWorkbooks dirFiles).isEmpty then 1 else 0

/-- A concrete workbook whose two sheet names collide after anchor
derivation. -/
def dataSheetA : Sheet := { name := "Data 1", grid := [[Cell.val "x"]] }

/-- The second sheet of the colliding workbook. -/
def dataSheetB : Sheet := { name := "Data-1", grid := [[Cell.val "y"]] }

/-- The two-sheet workbook of the collision scenario. -/
def collideWb : Workbook := { fileName := "collide.xlsx", sheets := [dataSheetA, dataSheetB] }

end SpreadSite

namespace SpreadSite


/- Helper lemmas -/

/-- Concatenation distributes over list append. -/
theorem concatAll_append (l₁ l₂ : List String) :
    concatAll (l₁ ++ l₂) = concatAll l₁ ++ concatAll l₂ := by
  induction l₁ with
  | nil => simp [concatAll]
  | cons s l ih => simp [concatAll, ih, String.append_assoc]

/-- A member's image can be split out of a joined map. -/
theorem concatAll_split {α : Type} (f : α → String) {x : α} {l : List α} (h : x ∈ l) :
    ∃ p q : String, concatAll (l.map f) = p ++ (f x ++ q) := by
  induction l with
  | nil => cases h
  | cons y ys ih =>
    rcases List.mem_cons.mp h with h | h
    · subst h
      exact ⟨"", concatAll (ys.map f), by simp [concatAll]⟩
    · obtain ⟨p, q, hpq⟩ := ih h
      exact ⟨f y ++ p, q, by simp [concatAll, hpq, String.append_assoc]⟩

/-- The rendered workbook page, split into its header (with the nav), the
sheet sections in sheet order, and the footer. -/
theorem renderWorkbook_eq (wb : Workbook) (bh : String) :
    renderWorkbook wb bh =
      docHeadOf wb bh ++ (navHtmlOf (wb.sheets.map Sheet.name) ++ ("\n" ++
        (concatAll (wb.sheets.map sectionPartOf) ++ footerPart))) := by
  simp [renderWorkbook, headerPartOf, concatAll, concatAll_append, String.append_assoc]

/-- Transitivity of `lexLe`. -/
theorem lexLe_trans : ∀ as bs cs : List Char,
    lexLe as bs = true → lexLe bs cs = true → lexLe as cs = true := by
  intro as
  induction as with
  | nil => intro bs cs _ _; rfl
  | cons a as ih =>
    intro bs cs h1 h2
    match bs, cs with
    | [], _ => simp [lexLe] at h1
    | _ :: _, [] => simp [lexLe] at h2
    | b :: bs, c :: cs =>
      simp only [lexLe] at h1 h2 ⊢
      rcases Nat.lt_trichotomy a.toNat b.toNat with hab | hab | hab
      · rcases Nat.lt_trichotomy b.toNat c.toNat with hbc | hbc | hbc
        · simp [show a.toNat < c.toNat from Nat.lt_trans hab hbc]
        · simp [show a.toNat < c.toNat from hbc ▸ hab]
        · rw [if_neg (by omega), if_pos hbc] at h2
          simp at h2
      · rcases Nat.lt_trichotomy b.toNat c.toNat with hbc | hbc | hbc
        · simp [show a.toNat < c.toNat by omega]
        · rw [if_neg (by omega), if_neg (by omega)] at h1
          rw [if_neg (by omega), if_neg (by omega)] at h2
          rw [if_neg (by omega), if_neg (by omega)]
          exact ih bs cs h1 h2
        · rw [if_neg (by omega), if_pos hbc] at h2
          simp at h2
      · rw [if_neg (by omega), if_pos hab] at h1
        simp at h1

/-- Totality of `lexLe`. -/
theorem lexLe_total : ∀ as bs : List Char, (lexLe as bs || lexLe bs as) = true := by
  intro as
  induction as with
  | nil => intro bs; simp [lexLe]
  | cons a as ih =>
    intro bs
    cases bs with
    | nil => simp [lexLe]
    | cons b bs =>
      simp only [lexLe]
      rcases Nat.lt_trichotomy a.toNat b.toNat with h | h | h
      · simp [h]
      · have h1 : ¬ a.toNat < b.toNat := by omega
        have h2 : ¬ b.toNat < a.toNat := by omega
        simp [h1, h2]
        simpa using ih bs
      · simp [h, Nat.lt_asymm h]

/-- Members of an insertion are the inserted element or old members. -/
theorem mem_insertSorted {x z : String} : ∀ {l : List String},
    z ∈ insertSorted x l → z = x ∨ z ∈ l := by
  intro l
  induction l with
  | nil =>
    intro h
    simp [insertSorted] at h
    exact Or.inl h
  | cons y ys ih =>
    intro h
    by_cases hxy : strLe x y
    · rw [insertSorted, if_pos hxy] at h
      rcases List.mem_cons.mp h with h | h
      · exact Or.inl h
      · exact Or.inr h
    · rw [insertSorted, if_neg hxy] at h
      rcases List.mem_cons.mp h with h | h
      · exact Or.inr (h ▸ List.mem_cons_self y ys)
      · rcases ih h with h | h
        · exact Or.inl h
        · exact Or.inr (List.mem_cons_of_mem y h)

/-- Insertion preserves sortedness under `strLe`. -/
theorem pairwise_insertSorted {x : String} : ∀ {l : List String},
    l.Pairwise (fun a b => strLe a b = true) →
    (insertSorted x l).Pairwise (fun a b => strLe a b = true) := by
  intro l
  induction l with
  | nil => intro _; simp [insertSorted]
  | cons y ys ih =>
    intro h
    rcases List.pairwise_cons.mp h with ⟨hy, hys⟩
    by_cases hxy : strLe x y
    · rw [insertSorted, if_pos hxy]
      refine List.pairwise_cons.mpr ⟨?_, h⟩
      intro z hz
      rcases List.mem_cons.mp hz with rfl | hz
      · exact hxy
      · exact lexLe_trans x.data y.data z.data hxy (hy z hz)
    · rw [insertSorted, if_neg hxy]
      refine List.pairwise_cons.mpr ⟨?_, ih hys⟩
      intro z hz
      rcases mem_insertSorted hz with hzx | hz
      · rw [hzx]
        have htot := lexLe_total x.data y.data
        rcases Bool.or_eq_true_iff.mp htot with hl | hl
        · exact absurd hl hxy
        · exact hl
      · exact hy z hz

/-- Insertion is a permutation of consing. -/
theorem perm_insertSorted (x : String) : ∀ l : List String,
    (insertSorted x l).Perm (x :: l) := by
  intro l
  induction l with
  | nil => simp [insertSorted]
  | cons y ys ih =>
    by_cases hxy : strLe x y
    · rw [insertSorted, if_pos hxy]
    · rw [insertSorted, if_neg hxy]
      exact (ih.cons y).trans (List.Perm.swap x y ys)

/-- The sort used for directory fallback is sorted under `strLe`. -/
theorem sortStrings_sorted : ∀ l : List String,
    (sortStrings l).Pairwise (fun a b => strLe a b = true) := by
  intro l
  induction l with
  | nil => simp [sortStrings]
  | cons x xs ih => exact pairwise_insertSorted ih

/-- The sort used for directory fallback is a permutation of its input. -/
theorem sortStrings_perm : ∀ l : List String, (sortStrings l).Perm l := by
  intro l
  induction l with
  | nil => simp [sortStrings]
  | cons x xs ih => exact (perm_insertSorted x (sortStrings xs)).trans (ih.cons x)

/- Claim theorems -/

/-- C1: for every sheet name, the anchor identifier computed for the
navigation link (line 167) and the one used as the section element's id
(line 189) are the same derivation applied twice, hence identical
strings. -/
theorem nav_anchor_eq_section_anchor (s : String) : navAnchorOf s = sectionAnchorOf s := rfl

/-- C2 counterexample: the anchor derivation of `render_workbook` produces
`"sheet-data-1"` — not the bare string `"data-1"` — for the sheet names
`"Data 1"` and `"Data-1"`. -/
theorem anchor_derivation_not_bare_data1 :
    navAnchorOf "Data 1" ≠ "data-1" ∧ sectionAnchorOf "Data-1" ≠ "data-1" := by
  decide

/-- C2 amended: for a workbook with sheets `"Data 1"` and `"Data-1"`, the
anchor derivation yields `"sheet-data-1"` for both (nav link and section
id alike), and rendering the workbook still completes, producing the full
page with the two colliding sections. -/
theorem anchor_collision_no_crash :
    navAnchorOf "Data 1" = "sheet-data-1" ∧
    navAnchorOf "Data-1" = "sheet-data-1" ∧
    sectionAnchorOf "Data 1" = "sheet-data-1" ∧
    sectionAnchorOf "Data-1" = "sheet-data-1" ∧
    renderWorkbook collideWb "../spreadsheets.html" =
      docHeadOf collideWb "../spreadsheets.html" ++ (navHtmlOf ["Data 1", "Data-1"] ++ ("\n" ++
        (concatAll [sectionPartOf dataSheetA, sectionPartOf dataSheetB] ++ footerPart))) := by
  refine ⟨by decide, by decide, by decide, by decide, ?_⟩
  simpa [collideWb, dataSheetA, dataSheetB] using
    renderWorkbook_eq collideWb "../spreadsheets.html"

/-- C3: `sanitize_filename` maps a name to its stem with every character
that is not alphanumeric, `-` or `_` replaced by `_`, plus the fixed
suffix `".html"`; every character before the suffix is alphanumeric, a
hyphen or an underscore. -/
theorem sanitize_filename_spec (name : String) :
    sanitize_filename name = String.mk ((pathStem name).data.map sanChar) ++ ".html" ∧
    (sanitize_filename name).data = ((pathStem name).data.map sanChar) ++ ".html".data ∧
    ∀ c ∈ (pathStem name).data.map sanChar, c.isAlphanum ∨ c = '-' ∨ c = '_' := by
  refine ⟨rfl, rfl, ?_⟩
  intro c hc
  obtain ⟨x, _, rfl⟩ := List.mem_map.mp hc
  unfold sanChar
  by_cases h : x.isAlphanum ∨ x = '-' ∨ x = '_'
  · rw [if_pos h]; exact h
  · rw [if_neg h]; right; right; rfl

/-- C4: every cell of a rendered sheet table appears as a `<td>` whose
text is exactly the pandas-HTML-escaped string form of the cell, and a
missing/null cell appears as the empty table cell `<td></td>`. -/
theorem cell_rendered_escaped (df : List (List Cell)) (row : List Cell) (c : Cell)
    (hrow : row ∈ df) (hc : c ∈ row) :
    (∃ p q : String, df_to_html_table df = p ++ (tdCore c ++ q)) ∧
    tdCore c = "<td>" ++ (pandasEscape (cellStr c) ++ "</td>") ∧
    cellStr Cell.null = "" ∧
    tdCore Cell.null = "<td></td>" := by
  refine ⟨?_, by simp [tdCore, String.append_assoc], rfl, by decide⟩
  obtain ⟨P, Q, hPQ⟩ := concatAll_split trHtml hrow
  obtain ⟨p, q, hpq⟩ := concatAll_split tdHtml hc
  refine ⟨"<table border=\"0\" class=\"dataframe\">\n  <tbody>\n" ++ (P ++ ("    <tr>\n" ++ (p ++ "      "))),
          "\n" ++ (q ++ ("    </tr>\n" ++ (Q ++ "  </tbody>\n</table>"))), ?_⟩
  simp [df_to_html_table, hPQ, trHtml, hpq, tdHtml, String.append_assoc]

/-- C4 witness: the table for the concrete grid `[[null, "a<b"]]`
contains the escaped cell `<td>a&lt;b</td>`, and nulls render empty. -/
theorem cell_rendered_escaped_witness :
    (∃ p q : String, df_to_html_table [[Cell.null, Cell.val "a<b"]] =
      p ++ (tdCore (Cell.val "a<b") ++ q)) ∧
    tdCore (Cell.val "a<b") = "<td>" ++ (pandasEscape (cellStr (Cell.val "a<b")) ++ "</td>") ∧
    cellStr Cell.null = "" ∧
    tdCore Cell.null = "<td></td>" :=
  cell_rendered_escaped [[Cell.null, Cell.val "a<b"]] [Cell.null, Cell.val "a<b"]
    (Cell.val "a<b") (by simp) (by simp)

/-- C5: the index page is the fixed head, one `<li>` item per input file
in input order (duplicates kept: the item list is a `map`, its length the
input's length, and an input occurring k times yields at least k equal
items), and the tail; each item links to `<sheets-dir>/<sanitized>.html`
and shows the HTML-escaped name. -/
theorem index_lists_all_inputs (files : List String) (d : String) :
    render_index files d = indexHead ++ (concatAll (files.map (indexItemOf d)) ++ indexTail) ∧
    (files.map (indexItemOf d)).length = files.length ∧
    (∀ n, files.count n ≤ (files.map (indexItemOf d)).count (indexItemOf d n)) ∧
    (∀ n, indexItemOf d n =
      "<li><a href=\"" ++ d ++ "/" ++ sanitize_filename n
        ++ "\" target=\"_blank\" rel=\"noopener\">" ++ htmlEscape n ++ "</a></li>") ∧
    (∀ n ∈ files, ∃ p q : String, render_index files d = p ++ (indexItemOf d n ++ q)) := by
  refine ⟨by simp [render_index, String.append_assoc], by simp,
    fun n => List.count_le_count_map files (indexItemOf d) n, fun n => rfl, fun n hn => ?_⟩
  obtain ⟨p, q, h⟩ := concatAll_split (indexItemOf d) hn
  exact ⟨indexHead ++ p, q ++ indexTail,
    by simp [render_index, h, String.append_assoc]⟩

/-- C6: rendering is deterministic — equal workbook content yields
byte-identical output HTML. -/
theorem render_deterministic (wb₁ wb₂ : Workbook) (bh : String) (h : wb₁ = wb₂) :
    renderWorkbook wb₁ bh = renderWorkbook wb₂ bh := by
  rw [h]

/-- C6 witness: the determinism theorem applied to a concrete workbook. -/
theorem render_deterministic_witness :
    renderWorkbook collideWb "../spreadsheets.html" =
      renderWorkbook collideWb "../spreadsheets.html" :=
  render_deterministic collideWb collideWb "../spreadsheets.html" rfl

/-- C7: when both selection strategies come up empty, `main` exits with
status 1 (a `SystemExit` carrying the explanatory message) and writes no
page and no index file. -/
theorem no_input_fatal (xd sd : String) (df : List String)
    (h : selectWorkbooks df = []) :
    mainExitCode df = 1 ∧
    Effect.exitErr ("No .xlsx files found in " ++ xd) ∈ mainTrace xd sd df ∧
    (∀ p, Effect.writePage p ∉ mainTrace xd sd df) ∧
    (∀ p, Effect.writeIndex p ∉ mainTrace xd sd df) := by
  have hsel : (selectWorkbooks df).isEmpty = true := by simp [h]
  refine ⟨by simp [mainExitCode, hsel], by simp [mainTrace, hsel], fun p hp => ?_, fun p hp => ?_⟩
  · simp [mainTrace, hsel] at hp
  · simp [mainTrace, hsel] at hp

/-- C7 witness: an empty directory listing triggers the fatal exit with
no files written. -/
theorem no_input_fatal_witness :
    mainExitCode [] = 1 ∧
    Effect.exitErr ("No .xlsx files found in " ++ "xlsx") ∈ mainTrace "xlsx" "sheets" [] ∧
    (∀ p, Effect.writePage p ∉ mainTrace "xlsx" "sheets" []) ∧
    (∀ p, Effect.writeIndex p ∉ mainTrace "xlsx" "sheets" []) :=
  no_input_fatal "xlsx" "sheets" [] (by decide)

set_option maxRecDepth 8000 in
/-- C8: selection is two-staged — stage 1 keeps the members of
`ORDERED_XLSX` present on disk, in the fixed list's order (a sublist of
it), logging a skip for each absent one without aborting; only if stage 1
finds nothing does the directory scan run, yielding every `*.xlsx` name
in code-point lexicographic order; for a directory holding exactly
`A.xlsx` and `B.xlsx` (neither in the fixed list) the index lists
`A.xlsx` then `B.xlsx`, linking to `sheets/A.html` and `sheets/B.html`. -/
theorem selection_two_stage :
    (∀ df, (foundFromList df).Sublist ORDERED_XLSX) ∧
    (∀ df n, n ∈ foundFromList df ↔ n ∈ ORDERED_XLSX ∧ n ∈ df) ∧
    (∀ xd sd df n, n ∈ ORDERED_XLSX → n ∉ df →
      Effect.logSkip (xd ++ "/" ++ n) ∈ mainTrace xd sd df) ∧
    (∀ df, foundFromList df ≠ [] → selectWorkbooks df = foundFromList df) ∧
    (∀ df, foundFromList df = [] → selectWorkbooks df = sortStrings (globXlsx df)) ∧
    (∀ l, (sortStrings l).Pairwise (fun a b => strLe a b = true) ∧ (sortStrings l).Perm l) ∧
    selectWorkbooks ["B.xlsx", "A.xlsx"] = ["A.xlsx", "B.xlsx"] ∧
    render_index ["A.xlsx", "B.xlsx"] "sheets" =
      indexHead ++ ("<li><a href=\"sheets/A.html\" target=\"_blank\" rel=\"noopener\">A.xlsx</a></li>"
        ++ ("<li><a href=\"sheets/B.html\" target=\"_blank\" rel=\"noopener\">B.xlsx</a></li>" ++ indexTail)) := by
  refine ⟨fun df => List.filter_sublist _, fun df n => ?_, fun xd sd df n hmem hnot => ?_,
    fun df h => ?_, fun df h => ?_,
    fun l => ⟨sortStrings_sorted l, sortStrings_perm l⟩, by decide, ?_⟩
  · simp [foundFromList, List.mem_filter]
  · apply List.mem_cons_of_mem
    apply List.mem_append_left
    exact List.mem_map.mpr ⟨n, List.mem_filter.mpr ⟨hmem, by simp [hnot]⟩, rfl⟩
  · cases hF : foundFromList df with
    | nil => exact absurd hF h
    | cons a l => simp [selectWorkbooks, hF]
  · unfold selectWorkbooks
    rw [h]
    rfl
  · decide

/-- C9: the rendered page decomposes as header (which embeds the
navigation block, itself the joined nav links of the sheet names in
order), then the sheet sections mapped over `wb.sheets` in the
workbook's own order with no re-sorting, then the footer; the navigation
block therefore precedes every sheet section in the document. -/
theorem nav_before_sections_in_sheet_order (wb : Workbook) (bh : String) :
    renderWorkbook wb bh =
      docHeadOf wb bh ++ (navHtmlOf (wb.sheets.map Sheet.name) ++ ("\n" ++
        (concatAll (wb.sheets.map sectionPartOf) ++ footerPart))) ∧
    navHtmlOf (wb.sheets.map Sheet.name) =
      "<div class=\"sheet-nav\"><div class=\"small\">Sheets:</div>"
        ++ (concatAll ((wb.sheets.map Sheet.name).map navLinkOf) ++ "</div>") :=
  ⟨renderWorkbook_eq wb bh, by simp [navHtmlOf, String.append_assoc]⟩

/-- C10: `main` creates the sheets directory before any selection work
(the first effect of every trace is the `mkdir`), so a run that finds no
workbooks and aborts with the fatal error still leaves the directory
created. -/
theorem mkdir_before_selection (xd sd : String) (df : List String) :
    (mainTrace xd sd df).head? = some Effect.mkdirSheets ∧
    (selectWorkbooks df = [] →
      Effect.mkdirSheets ∈ mainTrace xd sd df ∧ mainExitCode df = 1 ∧
      Effect.exitErr ("No .xlsx files found in " ++ xd) ∈ mainTrace xd sd df) := by
  refine ⟨rfl, fun h => ?_⟩
  have hsel : (selectWorkbooks df).isEmpty = true := by simp [h]
  exact ⟨List.mem_cons_self _ _, by simp [mainExitCode, hsel], by simp [mainTrace, hsel]⟩

end SpreadSite
